import Mathlib

/-!
Shallow embedding of the geo-classification and noise-estimation logic of
`src/schiphol_analyzer.py` (class `SchipholFlightAnalyzer`).

Modelling conventions:
* Python floats carrying ordinary finite values are modelled by `ℚ`.
* A pandas cell that may be missing or NaN is modelled by `PyVal`
  (`missing` for an absent value / `None`, `nan` for a float NaN,
  `val q` for a finite number); `pd.isna` is true on the first two.
* A column value that is either NaN or a number is modelled by `Option ℚ`
  with `none` playing the role of NaN (so a `<` comparison against `none`
  is `false`, as NaN comparisons are in Python).
* The distance column produced by `calc_distance` holds either
  `float('inf')` (for undefined coordinates) or a finite number; it is
  modelled by `Option ℚ` with `none` standing for the infinity sentinel.
* The transcendental primitives — geopy's `geodesic(..).kilometers` and
  `math.degrees(math.atan2 ...)` — are taken as explicit function
  parameters (`geodesicKm`, `rawBearing`); everything after them
  (normalisation `(b + 360) % 360`, `round(_, 1)`, thresholds, tables)
  is embedded exactly.
* Python's `round(x, 1)` is modelled by `roundTo1`; Python rounds
  half-to-even while `round : ℚ → ℤ` rounds half up, but no statement in
  this development evaluates `roundTo1` at an exact half, so the two
  conventions agree everywhere they are used.
-/

namespace Schiphol

/-- Python `round(x, 1)`: round to one decimal place
(`round(estimated_noise, 1)` at line 155, `round(bearing, 1)` at line 213). -/
def roundTo1 (x : ℚ) : ℚ := (round (10 * x) : ℤ) / 10

/-- Python float `x % m` for positive modulus `m`, as used in
`(bearing + 360) % 360` (line 211): the result has the sign of the
divisor, i.e. `x - m * ⌊x / m⌋`. -/
def pymod (x m : ℚ) : ℚ := x - m * ⌊x / m⌋

/-- A pandas cell: absent (`None`), float NaN, or a finite value.
`pd.isna` is true on the first two and they are indistinguishable to all
code in the analyzer. -/
inductive PyVal where
  | missing
  | nan
  | val (q : ℚ)
deriving DecidableEq

/-- Embeds `pd.isna` on a cell. -/
def isna : PyVal → Bool
  | PyVal.missing => true
  | PyVal.nan => true
  | PyVal.val _ => false

/-- Embeds `calc_distance` (lines 133–136) and the identical
`distance_to_schiphol` (lines 190–193): if latitude or longitude is
missing/NaN the result is the sentinel `float('inf')` (modelled `none`),
otherwise the geodesic distance in kilometres.  `geodesicKm` abstracts
`geopy.distance.geodesic((lat, lon), target).kilometers`. -/
def calc_distance (geodesicKm : ℚ → ℚ → ℚ → ℚ → ℚ)
    (target_lat target_lon : ℚ) (lat lon : PyVal) : Option ℚ :=
  match lat, lon with
  | PyVal.val la, PyVal.val lo => some (geodesicKm la lo target_lat target_lon)
  | _, _ => none

/-- Embeds `estimate_noise` (lines 141–155).  The first argument is the
`baro_altitude` cell (`none` = NaN), the second the `distance_km` cell
(`none` = `float('inf')`).  Returns `0` when either is undefined,
otherwise the clamped, capped, floored and rounded noise estimate. -/
def estimate_noise (baro_altitude : Option ℚ) (distance_km : Option ℚ) : ℚ :=
  match baro_altitude, distance_km with
  | some alt, some dist =>
      let altitude_ft := max alt 100
      let distance := max dist (1 / 10)
      let base_noise : ℚ := 80
      let altitude_reduction := min (altitude_ft / 1000 * 5) 40
      let distance_reduction := min (distance * 2) 20
      roundTo1 (max (base_noise - altitude_reduction - distance_reduction) 30)
  | _, _ => 0

/-- Embeds `noise_impact_level` (lines 160–168). -/
def noise_impact_level (noise_db : ℚ) : String :=
  if noise_db ≥ 65 then "High Impact"
  else if noise_db ≥ 55 then "Moderate Impact"
  else if noise_db ≥ 45 then "Low Impact"
  else "Minimal Impact"

/-- Embeds `bearing_from_schiphol` (lines 198–213).  `rawBearing`
abstracts `math.degrees(math.atan2(y, x))` computed from the report and
Schiphol coordinates (its mathematical range is `(-180, 180]`); the
normalisation `(b + 360) % 360` and `round(b, 1)` are embedded exactly.
Undefined coordinates give `None`. -/
def bearing_from_schiphol (rawBearing : ℚ → ℚ → ℚ) (lat lon : PyVal) : Option ℚ :=
  match lat, lon with
  | PyVal.val la, PyVal.val lo => some (roundTo1 (pymod (rawBearing la lo + 360) 360))
  | _, _ => none

/-- Python comparison `altitude < t` where `altitude` may be NaN
(`none`): a NaN comparison is `False`. -/
def altLt (altitude : Option ℚ) (t : ℚ) : Bool :=
  match altitude with
  | none => false
  | some a => decide (a < t)

/-- Embeds `classify_operation` (lines 218–240).  The first argument is
the `distance_to_schiphol_km` cell (`none` = `float('inf')`), the second
the `baro_altitude` cell (`none` = NaN). -/
def classify_operation (distance : Option ℚ) (altitude : Option ℚ) : String :=
  match distance with
  | none => "Unknown"
  | some d =>
      if d < 5 then
        if altLt altitude 1000 then "Landing/Takeoff" else "Airport Vicinity"
      else if d < 15 then
        if altLt altitude 5000 then "Approach/Departure" else "Transit (Low)"
      else if d < 30 then
        if altLt altitude 10000 then "Extended Approach" else "Transit (Medium)"
      else "Transit (High)"

/-- Embeds the `approach_corridors` table (lines 42–50): name and
`bearing_range` pair, in dict insertion order.  There are seven
corridors; no `northwest` entry exists. -/
def approach_corridors : List (String × ℚ × ℚ) :=
  [("north", 315, 45),
   ("northeast", 45, 90),
   ("east", 90, 135),
   ("southeast", 135, 180),
   ("south", 180, 225),
   ("southwest", 225, 270),
   ("west", 270, 315)]

/-- Embeds the loop body of `identify_corridor` (lines 249–258): first
corridor whose (inclusive) range contains the bearing wins, `"Other"` if
none does.  A range with `start > end` crosses 0° and matches
`bearing >= start or bearing <= end`. -/
def corridor_lookup : List (String × ℚ × ℚ) → ℚ → String
  | [], _ => "Other"
  | (name, s, e) :: rest, b =>
      if s ≤ e then
        if s ≤ b ∧ b ≤ e then name else corridor_lookup rest b
      else
        if s ≤ b ∨ b ≤ e then name else corridor_lookup rest b

/-- Embeds `identify_corridor` (lines 245–258): NaN/None bearing gives
`"Unknown"`, otherwise the table lookup. -/
def identify_corridor (bearing : Option ℚ) : String :=
  match bearing with
  | none => "Unknown"
  | some b => corridor_lookup approach_corridors b

/-- The classification dictionary built by `classify_aircraft_by_icao`.
The early-return dictionary for an empty identifier (line 64) lacks the
`likely_commercial` / `likely_private` keys, hence those fields are
`Option Bool` with `none` for an absent key. -/
structure AircraftClass where
  type' : String
  category : String
  noise_level : String
  likely_commercial : Option Bool
  likely_private : Option Bool
deriving DecidableEq

/-- Embeds `any(callsign.startswith(p) for p in ...)` and the tuple form
`s.startswith((p1, p2, ...))`. -/
def startsAny (s : String) (ps : List String) : Bool :=
  ps.any (fun p => s.startsWith p)

/-- The `airline_patterns` table (lines 90–100), in dict insertion
order: `(pattern, type, category)`. -/
def airline_patterns : List (String × String × String) :=
  [("KLM", "Commercial Airline", "Major Carrier"),
   ("TRA", "Transavia", "Low Cost Carrier"),
   ("EZY", "EasyJet", "Low Cost Carrier"),
   ("RYR", "Ryanair", "Low Cost Carrier"),
   ("BAW", "British Airways", "Major Carrier"),
   ("DLH", "Lufthansa", "Major Carrier"),
   ("AFR", "Air France", "Major Carrier"),
   ("UAE", "Emirates", "Major Carrier"),
   ("QTR", "Qatar Airways", "Major Carrier")]

/-- Embeds the `for pattern, info in airline_patterns.items(): ... break`
loop (lines 102–106): the first matching pattern updates `type`,
`category` and `likely_commercial` and stops the scan. -/
def airline_update : List (String × String × String) → AircraftClass → String → AircraftClass
  | [], c, _ => c
  | (pat, ty, cat) :: rest, c, cs =>
      if cs.startsWith pat then
        { c with type' := ty, category := cat, likely_commercial := some true }
      else airline_update rest c cs

/-- Embeds `classify_aircraft_by_icao` (lines 52–114).  The callsign is
optional (`callsign: str = None`); Python treats `None` and the empty
string alike via `if callsign:`. -/
def classify_aircraft_by_icao (icao24 : String) (callsign : Option String) : AircraftClass :=
  if icao24 = "" then
    ⟨"Unknown", "Unknown", "Unknown", none, none⟩
  else
    let ic := icao24.toUpper.trim
    let c0 : AircraftClass :=
      ⟨"Unknown", "Unknown", "Unknown", some false, some false⟩
    let c1 :=
      if startsAny ic ["4", "D", "G", "F", "I"] then
        { c0 with likely_commercial := some true, category := "Commercial" }
      else if startsAny ic ["A", "C"] then
        { c0 with likely_private := some true, category := "Private/Corporate" }
      else if ic.startsWith "PH" then
        { c0 with category := "Netherlands Registered" }
      else c0
    match callsign with
    | none => c1
    | some cs0 =>
        if cs0 = "" then c1
        else
          let cs := cs0.trim.toUpper
          let c2 := airline_update airline_patterns c1 cs
          if startsAny cs ["N", "G-", "PH-", "D-", "F-"] ∧ cs.length ≤ 6 then
            { c2 with likely_private := some true, category := "Private/General Aviation" }
          else c2

/-! ### Spec-side definitions

Each of the following definitions transcribes the wording of the
specification (not the source), for comparison with the embedded code
above. -/

/-- Transcribes the spec's operation-phase decision table (§4.1 step 3):
distance bands keyed on altitude thresholds, with an undefined altitude
falling through to the else branch of its distance band. -/
def phaseSpec (d : ℚ) (altitude : Option ℚ) : String :=
  if d < 5 then
    match altitude with
    | some a => if a < 1000 then "Landing/Takeoff" else "Airport Vicinity"
    | none => "Airport Vicinity"
  else if d < 15 then
    match altitude with
    | some a => if a < 5000 then "Approach/Departure" else "Transit (Low)"
    | none => "Transit (Low)"
  else if d < 30 then
    match altitude with
    | some a => if a < 10000 then "Extended Approach" else "Transit (Medium)"
    | none => "Transit (Medium)"
  else "Transit (High)"

/-- Transcribes the spec's noise-tier table (§4.1 step 6) with explicit
interval conditions: High when n ≥ 65, Moderate when 55 ≤ n < 65, Low
when 45 ≤ n < 55, Minimal when n < 45. -/
def tierSpec (n : ℚ) : String :=
  if 65 ≤ n then "High Impact"
  else if 55 ≤ n ∧ n < 65 then "Moderate Impact"
  else if 45 ≤ n ∧ n < 55 then "Low Impact"
  else "Minimal Impact"

/-- Transcribes the claimed noise formula (§4.1 step 5) literally, with
no clamping of the inputs and no rounding:
`max(floor_db, base_db − min(alt/1000·5, 40) − min(dist·2, 20))`. -/
def noiseSpecClaim (altitude_ft distance_km : ℚ) : ℚ :=
  max 30 (80 - min (altitude_ft / 1000 * 5) 40 - min (distance_km * 2) 20)

/-- Transcribes the amended noise formula: the code's clamps
(altitude at least 100 ft, distance at least 0.1 km) and the final
rounding to one decimal place applied on top of the spec formula. -/
def noiseSpecAmended (altitude_ft distance_km : ℚ) : ℚ :=
  roundTo1 (max 30 (80 - min (max altitude_ft 100 / 1000 * 5) 40
    - min (max distance_km (1 / 10) * 2) 20))

/-- Transcribes the amended corridor partition: seven corridors (there
is no `northwest`); `north` covers `[315, 360) ∪ [0, 45]`, each interior
boundary belongs to the corridor declared earlier in the table, and 315
belongs to `north` rather than `west`. -/
def corridorSpec (b : ℚ) : String :=
  if b ≤ 45 then "north"
  else if b ≤ 90 then "northeast"
  else if b ≤ 135 then "east"
  else if b ≤ 180 then "southeast"
  else if b ≤ 225 then "south"
  else if b ≤ 270 then "southwest"
  else if b < 315 then "west"
  else "north"

/-! ### Helper lemmas -/

/-- Rounding to one decimal place is monotone. -/
theorem roundTo1_mono {x y : ℚ} (h : x ≤ y) : roundTo1 x ≤ roundTo1 y := by
  have h1 : round (10 * x) ≤ round (10 * y) := by
    rw [round_eq, round_eq]
    exact Int.floor_mono (by linarith)
  have h2 : ((round (10 * x) : ℤ) : ℚ) ≤ ((round (10 * y) : ℤ) : ℚ) := by exact_mod_cast h1
  unfold roundTo1
  linarith

/-- Rounding to one decimal place fixes exact multiples of one tenth. -/
theorem roundTo1_tenth (k : ℤ) : roundTo1 ((k : ℚ) / 10) = (k : ℚ) / 10 := by
  unfold roundTo1
  have h : (10 : ℚ) * ((k : ℚ) / 10) = (k : ℚ) := by ring
  rw [h, round_intCast]

/-- Python `%` with a positive modulus returns a non-negative value. -/
theorem pymod_nonneg (x : ℚ) {m : ℚ} (hm : 0 < m) : 0 ≤ pymod x m := by
  have := Int.sub_floor_div_mul_nonneg x hm
  unfold pymod
  linarith

/-- Python `%` with a positive modulus returns a value below the modulus. -/
theorem pymod_lt (x : ℚ) {m : ℚ} (hm : 0 < m) : pymod x m < m := by
  have := Int.sub_floor_div_mul_lt x hm
  unfold pymod
  linarith

/-- Unfolded form of the noise estimator on defined inputs. -/
theorem estimate_noise_eq (alt dist : ℚ) :
    estimate_noise (some alt) (some dist) =
      roundTo1 (max (80 - min (max alt 100 / 1000 * 5) 40
        - min (max dist (1 / 10) * 2) 20) 30) := rfl

/-- The noise estimator is antitone in altitude (distance fixed). -/
theorem noise_anti_alt {a1 a2 d : ℚ} (h : a1 ≤ a2) :
    estimate_noise (some a2) (some d) ≤ estimate_noise (some a1) (some d) := by
  rw [estimate_noise_eq, estimate_noise_eq]
  apply roundTo1_mono
  have hm : max a1 100 ≤ max a2 100 := max_le_max h le_rfl
  have hr : min (max a1 100 / 1000 * 5) 40 ≤ min (max a2 100 / 1000 * 5) 40 :=
    min_le_min (by linarith) le_rfl
  exact max_le_max (by linarith) le_rfl

/-- The noise estimator is antitone in distance (altitude fixed). -/
theorem noise_anti_dist {a d1 d2 : ℚ} (h : d1 ≤ d2) :
    estimate_noise (some a) (some d2) ≤ estimate_noise (some a) (some d1) := by
  rw [estimate_noise_eq, estimate_noise_eq]
  apply roundTo1_mono
  have hm : max d1 (1 / 10) ≤ max d2 (1 / 10) := max_le_max h le_rfl
  have hr : min (max d1 (1 / 10) * 2) 20 ≤ min (max d2 (1 / 10) * 2) 20 :=
    min_le_min (by linarith) le_rfl
  exact max_le_max (by linarith) le_rfl

/-- On defined inputs the noise estimate never drops below the 30 dB floor. -/
theorem noise_floor_le (a d : ℚ) : 30 ≤ estimate_noise (some a) (some d) := by
  rw [estimate_noise_eq]
  have h30 : roundTo1 30 = 30 := by
    have := roundTo1_tenth 300
    norm_num at this
    exact this
  calc (30 : ℚ) = roundTo1 30 := h30.symm
    _ ≤ _ := roundTo1_mono (le_max_right _ _)

/-- On defined inputs the clamps make 79.3 dB the largest attainable
noise estimate. -/
theorem noise_le_793 (a d : ℚ) : estimate_noise (some a) (some d) ≤ 793 / 10 := by
  rw [estimate_noise_eq]
  have h793 : roundTo1 (793 / 10) = 793 / 10 := by
    have := roundTo1_tenth 793
    norm_num at this
    exact this
  have hra : (1 / 2 : ℚ) ≤ min (max a 100 / 1000 * 5) 40 := by
    have h100 : (100 : ℚ) ≤ max a 100 := le_max_right _ _
    have h1 : (1 / 2 : ℚ) ≤ max a 100 / 1000 * 5 := by linarith
    exact le_min h1 (by norm_num)
  have hrd : (1 / 5 : ℚ) ≤ min (max d (1 / 10) * 2) 20 := by
    have h01 : (1 / 10 : ℚ) ≤ max d (1 / 10) := le_max_right _ _
    have h1 : (1 / 5 : ℚ) ≤ max d (1 / 10) * 2 := by linarith
    exact le_min h1 (by norm_num)
  calc roundTo1 (max (80 - min (max a 100 / 1000 * 5) 40 - min (max d (1 / 10) * 2) 20) 30)
      ≤ roundTo1 (793 / 10) := roundTo1_mono (max_le (by linarith) (by norm_num))
    _ = 793 / 10 := h793

/-- Clamping is idempotent: feeding already-clamped inputs back into the
estimator changes nothing. -/
theorem noise_clamp_eq (alt dist : ℚ) :
    estimate_noise (some alt) (some dist)
      = estimate_noise (some (max alt 100)) (some (max dist (1 / 10))) := by
  rw [estimate_noise_eq, estimate_noise_eq, max_assoc, max_self, max_assoc, max_self]

/-- The noise estimate is always an integer number of tenths. -/
theorem noise_decimal (alt dist : ℚ) :
    ∃ k : ℤ, estimate_noise (some alt) (some dist) = (k : ℚ) / 10 :=
  ⟨round (10 * (max (80 - min (max alt 100 / 1000 * 5) 40
    - min (max dist (1 / 10) * 2) 20) 30)), rfl⟩

/-! ### Claim theorems -/

/-- C1, counterexample: for a report whose latitude is NaN, the pipeline
does not leave the noise estimate undefined — `estimate_noise` returns
the number 0 and `noise_impact_level` then labels the report
"Minimal Impact", a guessed tier. -/
theorem undefined_coords_zero_noise_cex :
    estimate_noise (some 1000)
        (calc_distance (fun _ _ _ _ => 0) 52 5 PyVal.nan (PyVal.val 4)) = 0 ∧
    noise_impact_level (estimate_noise (some 1000)
        (calc_distance (fun _ _ _ _ => 0) 52 5 PyVal.nan (PyVal.val 4)))
      = "Minimal Impact" := by
  have h : estimate_noise (some 1000)
      (calc_distance (fun _ _ _ _ => 0) 52 5 PyVal.nan (PyVal.val 4)) = 0 := rfl
  exact ⟨h, by rw [h]; norm_num [noise_impact_level]⟩

/-- C1 (amended): for every report whose latitude or longitude is
missing or NaN, the bearing is undefined, the distance is the
`float('inf')` sentinel, the operation phase and the corridor are the
marker string "Unknown" — but the noise estimate is the substituted
number 0 (not undefined), and the tier computed from it is
"Minimal Impact". -/
theorem undefined_coords_markers_amended
    (g : ℚ → ℚ → ℚ → ℚ → ℚ) (raw : ℚ → ℚ → ℚ) (alt : Option ℚ)
    (tlat tlon : ℚ) (lat lon : PyVal)
    (h : (isna lat || isna lon) = true) :
    calc_distance g tlat tlon lat lon = none ∧
    bearing_from_schiphol raw lat lon = none ∧
    classify_operation (calc_distance g tlat tlon lat lon) alt = "Unknown" ∧
    identify_corridor (bearing_from_schiphol raw lat lon) = "Unknown" ∧
    estimate_noise alt (calc_distance g tlat tlon lat lon) = 0 ∧
    noise_impact_level (estimate_noise alt (calc_distance g tlat tlon lat lon))
      = "Minimal Impact" := by
  have hd : calc_distance g tlat tlon lat lon = none := by
    cases lat <;> cases lon <;> simp_all [calc_distance, isna]
  have hb : bearing_from_schiphol raw lat lon = none := by
    cases lat <;> cases lon <;> simp_all [bearing_from_schiphol, isna]
  have hn : estimate_noise alt (calc_distance g tlat tlon lat lon) = 0 := by
    rw [hd]; cases alt <;> rfl
  refine ⟨hd, hb, ?_, ?_, hn, ?_⟩
  · rw [hd]; rfl
  · rw [hb]; rfl
  · rw [hn]; norm_num [noise_impact_level]

/-- C1 witness: the amended statement at a concrete NaN-latitude report. -/
theorem undefined_coords_markers_amended_witness :
    calc_distance (fun _ _ _ _ => 0) 52 5 PyVal.nan (PyVal.val 4) = none ∧
    bearing_from_schiphol (fun _ _ => 0) PyVal.nan (PyVal.val 4) = none ∧
    classify_operation (calc_distance (fun _ _ _ _ => 0) 52 5 PyVal.nan (PyVal.val 4))
      (some 1000) = "Unknown" ∧
    identify_corridor (bearing_from_schiphol (fun _ _ => 0) PyVal.nan (PyVal.val 4))
      = "Unknown" ∧
    estimate_noise (some 1000)
      (calc_distance (fun _ _ _ _ => 0) 52 5 PyVal.nan (PyVal.val 4)) = 0 ∧
    noise_impact_level (estimate_noise (some 1000)
      (calc_distance (fun _ _ _ _ => 0) 52 5 PyVal.nan (PyVal.val 4)))
      = "Minimal Impact" :=
  undefined_coords_markers_amended (fun _ _ _ _ => 0) (fun _ _ => 0) (some 1000)
    52 5 PyVal.nan (PyVal.val 4) (by decide)

/-- C2, counterexample: a bearing of exactly 45° is assigned to the
`north` corridor, not `northeast` — the ranges are inclusive on both
ends and the table is scanned in declaration order, so a boundary
bearing goes to the earlier corridor. -/
theorem corridor_octants_cex :
    identify_corridor (some 45) = "north" ∧
    identify_corridor (some 45) ≠ "northeast" := by
  have h : identify_corridor (some 45) = "north" := by
    norm_num [identify_corridor, corridor_lookup, approach_corridors]
  exact ⟨h, by rw [h]; decide⟩

set_option maxHeartbeats 1600000 in
/-- C2 (amended): for every bearing in [0, 360) the corridor table
yields exactly the seven-sector partition `corridorSpec`: `north` covers
[315, 360) ∪ [0, 45] (90 degrees wide, there is no `northwest`
corridor), each other sector is a 45-degree arc owning its upper
boundary, 315 belongs to `north` rather than `west`, and neither
"Other" nor "Unknown" is ever returned. -/
theorem corridor_partition_amended (b : ℚ) (h0 : 0 ≤ b) (h1 : b < 360) :
    identify_corridor (some b) = corridorSpec b := by
  simp only [identify_corridor, corridor_lookup, approach_corridors, corridorSpec]
  norm_num
  split_ifs <;>
    first
      | rfl
      | (exfalso
         simp only [not_and_or, not_or, not_le, not_lt] at *
         casesm* _ ∨ _, _ ∧ _ <;> linarith)

/-- C2 witness: the amended partition at the concrete bearings 44.9, 45
and 45.1. -/
theorem corridor_partition_amended_witness :
    identify_corridor (some (449 / 10)) = corridorSpec (449 / 10) ∧
    identify_corridor (some 45) = corridorSpec 45 ∧
    identify_corridor (some (451 / 10)) = corridorSpec (451 / 10) :=
  ⟨corridor_partition_amended (449 / 10) (by norm_num) (by norm_num),
   corridor_partition_amended 45 (by norm_num) (by norm_num),
   corridor_partition_amended (451 / 10) (by norm_num) (by norm_num)⟩

/-- C3, counterexample: at altitude 0 ft and distance 0 km the code
returns 79.3 dB, not the 80 dB demanded by the claimed formula, because
it clamps the altitude to 100 ft and the distance to 0.1 km first. -/
theorem noise_formula_literal_cex :
    estimate_noise (some 0) (some 0) = 793 / 10 ∧
    noiseSpecClaim 0 0 = 80 ∧
    (793 / 10 : ℚ) ≠ 80 := by
  refine ⟨?_, ?_, by norm_num⟩
  · norm_num [estimate_noise, roundTo1, round_eq]
  · norm_num [noiseSpecClaim]

/-- C3 (amended): for every defined altitude and distance the noise
estimate equals the claimed formula with the code's two clamps
(altitude at least 100 ft, distance at least 0.1 km) and a final
rounding to one decimal place; altitude 10000 ft at 10 km still floors
to exactly 30 dB, while altitude 0 ft at 0 km gives 79.3 dB, not 80. -/
theorem noise_formula_amended :
    (∀ alt dist : ℚ, estimate_noise (some alt) (some dist) = noiseSpecAmended alt dist) ∧
    estimate_noise (some 10000) (some 10) = 30 ∧
    estimate_noise (some 0) (some 0) = 793 / 10 := by
  refine ⟨fun alt dist => ?_, ?_, ?_⟩
  · rw [estimate_noise_eq, noiseSpecAmended, max_comm]
  · norm_num [estimate_noise, roundTo1, round_eq]
  · norm_num [estimate_noise, roundTo1, round_eq]

/-- C4 (confirmed): for every defined distance the operation phase
follows the claimed priority-ordered decision table `phaseSpec`, with an
undefined (NaN) altitude falling through to the else branch of its
distance band; in particular 20 km at 8000 ft is "Extended Approach". -/
theorem operation_phase_table :
    (∀ (d : ℚ) (alt : Option ℚ), classify_operation (some d) alt = phaseSpec d alt) ∧
    classify_operation (some 20) (some 8000) = "Extended Approach" := by
  constructor
  · intro d alt
    cases alt <;>
      simp only [classify_operation, phaseSpec, altLt, decide_eq_true_eq] <;>
      split_ifs <;> simp_all
  · norm_num [classify_operation, altLt]

/-- C5, counterexample: the bearing column is rounded to one decimal
place after normalisation to [0, 360), so a raw bearing of −0.01°
(within the range (−180, 180] of `math.degrees(math.atan2(...))`, i.e. a
position a hair west of due north) normalises to 359.99 and is then
rounded to exactly 360.0, which the claim says is never produced. -/
theorem bearing_rounds_to_360_cex :
    bearing_from_schiphol (fun _ _ => -1 / 100) (PyVal.val 52) (PyVal.val 4)
      = some 360 ∧
    ¬ ((360 : ℚ) < 360) := by
  refine ⟨?_, by norm_num⟩
  norm_num [bearing_from_schiphol, pymod, roundTo1, round_eq]

/-- C5 (amended): for every report with defined coordinates the
computed distance is defined and non-negative (whenever the geodesic
primitive is), and the computed bearing is defined and lies in the
closed interval [0, 360] — the rounding to one decimal place can return
exactly 360.0 for raw bearings just below 360°, so the half-open
interval of the claim must be closed on the right. -/
theorem distance_bearing_range_amended
    (g : ℚ → ℚ → ℚ → ℚ → ℚ) (raw : ℚ → ℚ → ℚ) (tlat tlon la lo : ℚ)
    (hg : 0 ≤ g la lo tlat tlon) :
    (∃ dk, calc_distance g tlat tlon (PyVal.val la) (PyVal.val lo) = some dk ∧ 0 ≤ dk) ∧
    (∃ b, bearing_from_schiphol raw (PyVal.val la) (PyVal.val lo) = some b ∧
      0 ≤ b ∧ b ≤ 360) := by
  refine ⟨⟨g la lo tlat tlon, rfl, hg⟩, ⟨_, rfl, ?_, ?_⟩⟩
  · have h0 := pymod_nonneg (raw la lo + 360) (show (0 : ℚ) < 360 by norm_num)
    have hm := roundTo1_mono h0
    have hz : roundTo1 0 = 0 := by
      have := roundTo1_tenth 0
      norm_num at this
      exact this
    rw [hz] at hm
    exact hm
  · have h1 := pymod_lt (raw la lo + 360) (show (0 : ℚ) < 360 by norm_num)
    have hm := roundTo1_mono (le_of_lt h1)
    have h360 : roundTo1 360 = 360 := by
      have := roundTo1_tenth 3600
      norm_num at this
      exact this
    rw [h360] at hm
    exact hm

/-- C5 witness: the amended statement at a concrete report with defined
coordinates and a non-negative geodesic primitive. -/
theorem distance_bearing_range_amended_witness :
    (∃ dk, calc_distance (fun _ _ _ _ => 3) 52 4 (PyVal.val 52) (PyVal.val 5)
      = some dk ∧ 0 ≤ dk) ∧
    (∃ b, bearing_from_schiphol (fun _ _ => 90) (PyVal.val 52) (PyVal.val 5)
      = some b ∧ 0 ≤ b ∧ b ≤ 360) :=
  distance_bearing_range_amended (fun _ _ _ _ => 3) (fun _ _ => 90) 52 4 52 5
    (by norm_num)

/-- C6, counterexample: a report with defined coordinates (so a defined,
finite distance) but NaN barometric altitude receives the substituted
noise estimate 0, which is below the 30 dB floor the claim asserts for
every report with defined geometry. -/
theorem noise_below_floor_cex :
    estimate_noise none
        (calc_distance (fun _ _ _ _ => 5) 52 5 (PyVal.val 52) (PyVal.val 4)) = 0 ∧
    ¬ (30 ≤ estimate_noise none
        (calc_distance (fun _ _ _ _ => 5) 52 5 (PyVal.val 52) (PyVal.val 4))) := by
  have h : estimate_noise none
      (calc_distance (fun _ _ _ _ => 5) 52 5 (PyVal.val 52) (PyVal.val 4)) = 0 := rfl
  exact ⟨h, by rw [h]; norm_num⟩

/-- C6 (amended): the noise estimate is antitone in altitude at fixed
defined distance and antitone in distance at fixed defined altitude, and
for every report with defined altitude and defined distance (rather than
merely defined coordinates) it never falls below the 30 dB floor. -/
theorem noise_monotone_amended (a1 a2 d1 d2 a d : ℚ)
    (hA : a1 ≤ a2) (hD : d1 ≤ d2) :
    estimate_noise (some a2) (some d) ≤ estimate_noise (some a1) (some d) ∧
    estimate_noise (some a) (some d2) ≤ estimate_noise (some a) (some d1) ∧
    30 ≤ estimate_noise (some a) (some d) :=
  ⟨noise_anti_alt hA, noise_anti_dist hD, noise_floor_le a d⟩

/-- C6 witness: the amended statement at concrete altitudes and
distances. -/
theorem noise_monotone_amended_witness :
    estimate_noise (some 2000) (some 3) ≤ estimate_noise (some 1000) (some 3) ∧
    estimate_noise (some 500) (some 9) ≤ estimate_noise (some 500) (some 2) ∧
    30 ≤ estimate_noise (some 500) (some 3) :=
  noise_monotone_amended 1000 2000 2 9 500 3 (by norm_num) (by norm_num)

/-- C7 (confirmed): the noise tier of every defined noise value follows
the claimed thresholds — High from 65 dB, Moderate on [55, 65), Low on
[45, 55), Minimal below 45.  (In the code the noise column is total, so
no report ever carries an undefined noise value and the claim's
undefined-noise clause is vacuous.) -/
theorem noise_tier_thresholds : ∀ n : ℚ, noise_impact_level n = tierSpec n := by
  intro n
  simp only [noise_impact_level, tierSpec, ge_iff_le]
  split_ifs <;>
    first
      | rfl
      | (exfalso
         simp only [not_and_or, not_or, not_le, not_lt] at *
         casesm* _ ∨ _, _ ∧ _ <;> linarith)

/-- C8 (confirmed): a NaN coordinate is handled exactly like a missing
one — both are caught by the `pd.isna` guard before any arithmetic, the
distance becomes the infinity sentinel and the bearing `None`, and the
geodesic / bearing arithmetic only ever receives the finite rational
payloads of present coordinates; the classification functions are total,
so no per-record exception can arise. -/
theorem nan_treated_as_missing
    (g : ℚ → ℚ → ℚ → ℚ → ℚ) (raw : ℚ → ℚ → ℚ) (tlat tlon : ℚ) (lat lon : PyVal) :
    (calc_distance g tlat tlon PyVal.nan lon = calc_distance g tlat tlon PyVal.missing lon ∧
     calc_distance g tlat tlon lat PyVal.nan = calc_distance g tlat tlon lat PyVal.missing ∧
     bearing_from_schiphol raw PyVal.nan lon = bearing_from_schiphol raw PyVal.missing lon ∧
     bearing_from_schiphol raw lat PyVal.nan = bearing_from_schiphol raw lat PyVal.missing) ∧
    ((isna lat || isna lon) = true →
      calc_distance g tlat tlon lat lon = none ∧
      bearing_from_schiphol raw lat lon = none) ∧
    (∀ la lo, lat = PyVal.val la → lon = PyVal.val lo →
      calc_distance g tlat tlon lat lon = some (g la lo tlat tlon) ∧
      bearing_from_schiphol raw lat lon
        = some (roundTo1 (pymod (raw la lo + 360) 360))) := by
  refine ⟨⟨?_, ?_, ?_, ?_⟩, ?_, ?_⟩ <;>
    cases lat <;> cases lon <;>
      simp_all [calc_distance, bearing_from_schiphol, isna]

/-- C8 witness: the guarded branch at a concrete NaN-latitude report. -/
theorem nan_treated_as_missing_witness :
    calc_distance (fun _ _ _ _ => 7) 52 4 PyVal.nan (PyVal.val 4) = none ∧
    bearing_from_schiphol (fun _ _ => 0) PyVal.nan (PyVal.val 4) = none :=
  (nan_treated_as_missing (fun _ _ _ _ => 7) (fun _ _ => 0) 52 4
    PyVal.nan (PyVal.val 4)).2.1 (by decide)

/-- C9 (confirmed): the classifier is total and always yields a
category; an empty identifier returns the all-Unknown record for every
callsign; and the airline scan has first-match-wins semantics — its
result is governed by `List.find?` over the ordered pattern table, so
when several patterns match, the one declared first wins. -/
theorem aircraft_classifier_first_match :
    (∀ cs, classify_aircraft_by_icao "" cs
      = ⟨"Unknown", "Unknown", "Unknown", none, none⟩) ∧
    (∀ (ps : List (String × String × String)) (c : AircraftClass) (cs : String),
      airline_update ps c cs =
        match ps.find? (fun p => cs.startsWith p.1) with
        | none => c
        | some p =>
            { c with type' := p.2.1, category := p.2.2, likely_commercial := some true }) := by
  constructor
  · intro cs
    simp [classify_aircraft_by_icao]
  · intro ps c cs
    induction ps with
    | nil => rfl
    | cons hd tl ih =>
        obtain ⟨pat, ty, cat⟩ := hd
        by_cases h : cs.startsWith pat
        · simp [airline_update, List.find?_cons_of_pos, h]
        · simp [airline_update, List.find?_cons_of_neg, h, ih]

/-- C10 (confirmed): the estimator clamps its inputs (altitude to at
least 100 ft, distance to at least 0.1 km) before the attenuation
formula, so the estimate is invariant under that clamping, never exceeds
79.3 dB (the 80 dB base is unattainable), is always a whole number of
tenths, and equals exactly 79.3 at altitude 0 ft, distance 0 km. -/
theorem noise_clamped_and_bounded :
    (∀ alt dist : ℚ,
      estimate_noise (some alt) (some dist)
        = estimate_noise (some (max alt 100)) (some (max dist (1 / 10))) ∧
      estimate_noise (some alt) (some dist) ≤ 793 / 10 ∧
      ∃ k : ℤ, estimate_noise (some alt) (some dist) = (k : ℚ) / 10) ∧
    estimate_noise (some 0) (some 0) = 793 / 10 := by
  refine ⟨fun alt dist =>
    ⟨noise_clamp_eq alt dist, noise_le_793 alt dist, noise_decimal alt dist⟩, ?_⟩
  norm_num [estimate_noise, roundTo1, round_eq]

end Schiphol
